import Mathlib

/-!
Shallow embedding of the ESP32-SPIFFS-Upload tool (`src/main.py`).

The program probes serial ports for an ESP device via the external
`esptool` utility, classifies the tool's textual output into a device
status, and uploads the entries of a user-selected zip archive to
sequential flash addresses.  Subprocess invocations are modelled as
oracle functions supplied as parameters; file-system and GUI side
effects are recorded as an explicit event trace.
-/

namespace ESP32Upload

/-! ### Configuration constants (main.py lines 21-36) -/

/-- `CHUNK_SIZE = 0x1000` — ESP32 flash memory chunk size. -/
def CHUNK_SIZE : Nat := 0x1000

/-- `DEVICE_FOUND = 0` -/
def DEVICE_FOUND : Nat := 0

/-- `BOOT_MODE_ERROR = 1` -/
def BOOT_MODE_ERROR : Nat := 1

/-- `NO_DEVICE_FOUND = 2` -/
def NO_DEVICE_FOUND : Nat := 2

/-- `BOOT_MODE_ERROR_TEXT` signature scanned for in esptool output. -/
def BOOT_MODE_ERROR_TEXT : String := "Wrong boot mode detected"

/-- `NO_DEVICE_FOUND_TEXT` signature scanned for in esptool output. -/
def NO_DEVICE_FOUND_TEXT : String := "fatal error occurred: Failed to connect"

/-! ### Python string primitives

Python's `needle in hay`, `s.endswith(t)` and `hex(n)` modelled over
character lists. -/

/-- Bool test: is `n` a contiguous infix of `h`?  (Python `n in h`.) -/
def containsSub (n : List Char) : List Char → Bool
  | [] => n.isEmpty
  | c :: t => n.isPrefixOf (c :: t) || containsSub n t

/-- Python `needle in hay` on strings. -/
def pyIn (needle hay : String) : Bool := containsSub needle.data hay.data

/-- Python `s.endswith(t)`. -/
def pyEndsWith (s t : String) : Bool := t.data.isSuffixOf s.data

/-- Python `hex(n)` for nonnegative `n`: `"0x"` followed by lowercase
hexadecimal digits. -/
def pyHex (n : Nat) : String := "0x" ++ String.mk (Nat.toDigits 16 n)

/-! ### Flashing tool adapter (`class ESP32`, main.py lines 68-107) -/

/-- Result of a `subprocess.run(..., capture_output=True)` call:
both output streams plus the exit status. -/
structure CompletedProcess where
  stdout : String
  stderr : String
  returncode : Int
deriving DecidableEq, Repr

/-- `ESP32.check_status` (main.py lines 72-86): decodes `result.stdout`
and classifies it by scanning for the two signature substrings; the
boot-mode signature is checked first.  `subprocess.run` is called
without `check=True`, so the function is total in the exit status. -/
def check_status (result : CompletedProcess) : Nat :=
  let text := result.stdout
  if pyIn BOOT_MODE_ERROR_TEXT text then BOOT_MODE_ERROR
  else if pyIn NO_DEVICE_FOUND_TEXT text then NO_DEVICE_FOUND
  else DEVICE_FOUND

/-- `ESP32.upload_file` (main.py lines 88-93): the argument vector passed
to `subprocess.run`. -/
def upload_file_cmd (port : String) (baud : Nat) (address : Nat)
    (file_path : String) : List String :=
  ["esptool", "--port", port, "--baud", toString baud, "write_flash",
   "--flash_size=detect", pyHex address, file_path]

/-- `ESP32.upload_program` (main.py lines 95-100): the argument vector
passed to `subprocess.run`.  The body is a verbatim copy of
`upload_file`'s. -/
def upload_program_cmd (port : String) (baud : Nat) (address : Nat)
    (file_path : String) : List String :=
  ["esptool", "--port", port, "--baud", toString baud, "write_flash",
   "--flash_size=detect", pyHex address, file_path]

/-! ### Device resolver (`get_device`, main.py lines 48-65)

The `esptool flash_id` subprocess is modelled by an oracle
`probe : String → Nat` giving the status `ESP32(port).check_status()`
would classify for each port.  A device is identified by its port
string (`ESP32.__init__` stores only the port).  The function is
instrumented to also return the list of ports actually probed, so that
short-circuiting is observable. -/

def get_device (probe : String → Nat) :
    List String → (Option String × Nat) × List String
  | [] => ((none, NO_DEVICE_FOUND), [])
  | port :: ports =>
    let status := probe port
    if status = DEVICE_FOUND then ((some port, status), [port])
    else if status = BOOT_MODE_ERROR then ((none, status), [port])
    else
      let rest := get_device probe ports
      (rest.1, port :: rest.2)

/-! ### Upload planner and session (`GUI.upload_zip_folder`, main.py lines 173-243)

A zip archive entry is a name and a byte length; `zip.open` /
`f.read()` deliver the bytes, whose only observable effect in the model
is the length written to the temp file (`os.path.getsize`). -/

structure ZipEntry where
  filename : String
  length : Nat
deriving DecidableEq, Repr

/-- Line 210: `if file_name.filename in [None, '/']: continue`.
`ZipInfo.filename` is always a `str`, so the `None` alternative can
never match; the test is equality with `"/"`. -/
def skipEntry (e : ZipEntry) : Bool := e.filename == "/"

/-- Lines 203-204: the iteration order — entries whose name ends with
`.bin` first, then the rest, each sublist in archive order. -/
def orderEntries (entries : List ZipEntry) : List ZipEntry :=
  entries.filter (fun e => pyEndsWith e.filename ".bin")
    ++ entries.filter (fun e => !pyEndsWith e.filename ".bin")

/-- Line 234: `current_address = ((current_address + size) // CHUNK_SIZE + 1) * CHUNK_SIZE`. -/
def next_address (addr size : Nat) : Nat :=
  ((addr + size) / CHUNK_SIZE + 1) * CHUNK_SIZE

/-- The address walk of the upload loop (lines 208-237), restricted to
its planning content: skipped entries get no address and do not advance
the running address; every other entry is paired with the current
running address, which then advances by `next_address`. -/
def planAddrs : List ZipEntry → Nat → List (ZipEntry × Nat)
  | [], _ => []
  | e :: rest, addr =>
    if skipEntry e then planAddrs rest addr
    else (e, addr) :: planAddrs rest (next_address addr e.length)

/-- The upload plan of `upload_zip_folder`: iteration order from lines
203-204, addresses from the walk starting at `current_address = 0x0`
(line 201). -/
def plan (entries : List ZipEntry) : List (ZipEntry × Nat) :=
  planAddrs (orderEntries entries) 0x0

/-- Python `file_name[file_name.rindex("."):]` on a char list: the
suffix starting at the last `'.'`, or `none` when there is no `'.'`
(in which case `str.rindex` raises `ValueError`). -/
def suffixFromLastDot : List Char → Option (List Char)
  | [] => none
  | c :: rest =>
    match suffixFromLastDot rest with
    | some suf => some suf
    | none => if c = '.' then some (c :: rest) else none

/-- Line 219: `temp_path = f'temp{file_name[file_name.rindex("."):]}'`;
`none` models the `ValueError` raised when the name has no dot. -/
def temp_path (file_name : String) : Option String :=
  (suffixFromLastDot file_name.data).map (fun suf => "temp" ++ String.mk suf)

/-- Observable side effects of `upload_zip_folder`, in program order. -/
inductive Event where
  /-- Line 183: `filedialog.askopenfilename(...)`. -/
  | openDialog
  /-- Line 188: `get_device()`. -/
  | resolveDevice
  /-- Line 195: `device.clear_flash()`. -/
  | eraseFlash
  /-- Lines 220-221: the temp file is created and written. -/
  | createTemp (path : String)
  /-- Lines 227-230: an `esptool write_flash` invocation at `address`. -/
  | uploadAt (address : Nat) (path : String)
  /-- Line 237: `os.remove(temp_path)`. -/
  | removeTemp (path : String)
deriving DecidableEq, Repr

/-- How a run of `upload_zip_folder` terminates. -/
inductive Outcome where
  /-- The function returns the boolean. -/
  | returned (b : Bool)
  /-- `device.clear_flash()` raised `CalledProcessError` (line 104, `check=True`). -/
  | eraseError
  /-- `str.rindex` raised `ValueError` on a dot-free name (line 219). -/
  | nameError
  /-- `upload_program`/`upload_file` raised `CalledProcessError`
  (lines 91/98, `check=True`) for the temp file `path`. -/
  | uploadError (path : String)
  /-- Line 191 references the identifier `task`, which is local to
  `GUI.run` and not in scope in `upload_zip_folder`, so the
  device-is-`None` branch raises `NameError` before reaching its
  `return False`. -/
  | taskLookupError
deriving DecidableEq, Repr

/-- The per-entry loop of lines 208-237.  `uploadOk addr path` is the
oracle for whether the `write_flash` subprocess exits zero.  On a
failed upload the exception propagates at once: the `os.remove` of
line 237 is not reached. -/
def uploadLoop (uploadOk : Nat → String → Bool) :
    List ZipEntry → Nat → List Event × Outcome
  | [], _ => ([], .returned true)
  | e :: rest, addr =>
    if skipEntry e then uploadLoop uploadOk rest addr
    else
      match temp_path e.filename with
      | none => ([], .nameError)
      | some tp =>
        if uploadOk addr tp then
          let r := uploadLoop uploadOk rest (next_address addr e.length)
          (.createTemp tp :: .uploadAt addr tp :: .removeTemp tp :: r.1, r.2)
        else
          ([.createTemp tp, .uploadAt addr tp], .uploadError tp)

/-- `GUI.upload_zip_folder` (lines 173-243).  `current_status` is the
global set by the polling task (`None` before the first poll);
`probe`/`ports` drive the re-resolution of line 188, `eraseOk` the
`erase_flash` subprocess, `uploadOk` the `write_flash` subprocesses,
and `entries` the contents of the selected zip archive. -/
def upload_zip_folder (current_status : Option Nat)
    (probe : String → Nat) (ports : List String)
    (eraseOk : Bool) (uploadOk : Nat → String → Bool)
    (entries : List ZipEntry) : List Event × Outcome :=
  if current_status ≠ some DEVICE_FOUND then ([], .returned false)
  else
    match (get_device probe ports).1 with
    | (none, _) => ([.openDialog, .resolveDevice], .taskLookupError)
    | (some _, _) =>
      if eraseOk then
        let r := uploadLoop uploadOk (orderEntries entries) 0x0
        (.openDialog :: .resolveDevice :: .eraseFlash :: r.1, r.2)
      else
        ([.openDialog, .resolveDevice, .eraseFlash], .eraseError)

/-- One step of tracking whether the temp file named `tp` exists on
disk: `createTemp tp` makes it exist, `removeTemp tp` removes it, every
other event leaves it alone. -/
def tempStep (tp : String) (s : Bool) : Event → Bool
  | .createTemp t => if t = tp then true else s
  | .removeTemp t => if t = tp then false else s
  | _ => s

/-- Whether, after the events `evs`, a temp file named `tp` exists on
disk (created and not subsequently removed), assuming it did not exist
initially. -/
def tempLive (evs : List Event) (tp : String) : Bool :=
  evs.foldl (tempStep tp) false

/-- A concrete probe oracle: port "A" reports no device, port "B" a
boot-mode error, every other port a found device. -/
def probeExample (p : String) : Nat :=
  if p = "A" then NO_DEVICE_FOUND
  else if p = "B" then BOOT_MODE_ERROR
  else DEVICE_FOUND

/-! ### Helper lemmas -/

/-- The head of an address walk carries the initial running address. -/
theorem planAddrs_head_addr {l : List ZipEntry} {a : Nat} {x : ZipEntry × Nat}
    (h : (planAddrs l a).head? = some x) : x.2 = a := by
  induction l generalizing a with
  | nil => simp [planAddrs] at h
  | cons e rest ih =>
    by_cases hs : skipEntry e = true
    · rw [planAddrs, if_pos hs] at h
      exact ih h
    · rw [planAddrs, if_neg hs] at h
      simp at h
      rw [← h]

/-- Adjacent pairs of an address walk are related by `next_address`. -/
theorem planAddrs_chain (l : List ZipEntry) (a : Nat) :
    List.Chain' (fun x y : ZipEntry × Nat => y.2 = next_address x.2 x.1.length)
      (planAddrs l a) := by
  induction l generalizing a with
  | nil => simp [planAddrs]
  | cons e rest ih =>
    by_cases hs : skipEntry e = true
    · rw [planAddrs, if_pos hs]
      exact ih a
    · rw [planAddrs, if_neg hs]
      refine List.chain'_cons'.mpr ⟨?_, ih _⟩
      intro y hy
      exact planAddrs_head_addr hy

/-- The entries of an address walk are the non-skipped input entries in
order. -/
theorem planAddrs_map_fst (l : List ZipEntry) (a : Nat) :
    (planAddrs l a).map Prod.fst = l.filter (fun e => !skipEntry e) := by
  induction l generalizing a with
  | nil => rfl
  | cons e rest ih =>
    by_cases hs : skipEntry e = true
    · rw [planAddrs, if_pos hs]
      simp [List.filter_cons, hs, ih]
    · have hs' : skipEntry e = false := by
        revert hs; cases skipEntry e <;> simp
      rw [planAddrs, if_neg hs]
      simp [List.filter_cons, hs', ih]

/-- No entry of an address walk is a skipped entry. -/
theorem planAddrs_no_skip (l : List ZipEntry) (a : Nat) :
    (planAddrs l a).all (fun x => !skipEntry x.1) = true := by
  induction l generalizing a with
  | nil => rfl
  | cons e rest ih =>
    by_cases hs : skipEntry e = true
    · rw [planAddrs, if_pos hs]
      exact ih a
    · have hs' : skipEntry e = false := by
        revert hs; cases skipEntry e <;> simp
      rw [planAddrs, if_neg hs]
      simp [hs', ih]

/-- A prefix of all-`NO_DEVICE_FOUND` ports is scanned past. -/
theorem get_device_scans_past_notfound (probe : String → Nat) (pre : List String)
    (h : ∀ q ∈ pre, probe q = NO_DEVICE_FOUND) (rest : List String) :
    get_device probe (pre ++ rest)
      = ((get_device probe rest).1, pre ++ (get_device probe rest).2) := by
  induction pre with
  | nil => simp
  | cons p ps ih =>
    have hp : probe p = NO_DEVICE_FOUND := h p (List.mem_cons_self p ps)
    have hps : ∀ q ∈ ps, probe q = NO_DEVICE_FOUND :=
      fun q hq => h q (List.mem_cons_of_mem p hq)
    simp [get_device, hp, NO_DEVICE_FOUND, DEVICE_FOUND, BOOT_MODE_ERROR, ih hps]

/-- On an upload failure the temp file of the failing entry is live in
the loop's trace, whatever the initial file-existence state. -/
theorem uploadLoop_leak (ok : Nat → String → Bool) (entries : List ZipEntry)
    (addr : Nat) (tp : String) (s : Bool)
    (h : (uploadLoop ok entries addr).2 = .uploadError tp) :
    (uploadLoop ok entries addr).1.foldl (tempStep tp) s = true := by
  induction entries generalizing addr s with
  | nil => simp [uploadLoop] at h
  | cons e rest ih =>
    by_cases hs : skipEntry e = true
    · rw [uploadLoop, if_pos hs] at h ⊢
      exact ih addr s h
    · cases htp : temp_path e.filename with
      | none => simp [uploadLoop, hs, htp] at h
      | some tp' =>
        by_cases hok : ok addr tp' = true
        · have h' : (uploadLoop ok rest (next_address addr e.length)).2
              = .uploadError tp := by
            rw [uploadLoop, if_neg hs, htp] at h
            simpa [hok] using h
          rw [uploadLoop, if_neg hs, htp]
          simp only [hok]
          simp only [if_true, List.foldl_cons]
          exact ih _ _ h'
        · rw [uploadLoop, if_neg hs, htp] at h ⊢
          simp [hok] at h
          subst h
          simp [hok, List.foldl, tempStep]

/-! ### Claim theorems -/

/-- C1 counterexample: on the entry list of the claim the plan does
order the entries as `[b.bin, a.txt]`, put `b.bin` at `0x0` and exclude
the `"/"` entry, but it assigns `a.txt` the address `0x2000`
(`((0 + 5000) // 4096 + 1) * 4096 = 8192`), not the claimed `0x1000`. -/
theorem C1_counterexample :
    plan [⟨"a.txt", 10⟩, ⟨"b.bin", 5000⟩, ⟨"/", 0⟩]
      = [(⟨"b.bin", 5000⟩, 0x0), (⟨"a.txt", 10⟩, 0x2000)]
    ∧ (0x2000 : Nat) ≠ 0x1000 := by decide

/-- C1 (amended): the plan over
`[{a.txt,10}, {b.bin,5000}, {"/",0}]` with chunk size `0x1000` uploads
`b.bin` first at address `0x0` and `a.txt` second at address `0x2000`,
and excludes the `"/"` entry. -/
theorem C1_plan_example :
    plan [⟨"a.txt", 10⟩, ⟨"b.bin", 5000⟩, ⟨"/", 0⟩]
      = [(⟨"b.bin", 5000⟩, 0x0), (⟨"a.txt", 10⟩, 0x2000)] := by decide

/-- C2 counterexample: when an entry of length `4096` starts at `0x0`,
its end offset `4096` is already a multiple of the chunk size, so the
claimed ceiling rule would place the next entry at
`ceil(4096/4096)*4096 = 0x1000`; the code places it at `0x2000`. -/
theorem C2_counterexample :
    plan [⟨"app.bin", 4096⟩, ⟨"data.txt", 1⟩]
      = [(⟨"app.bin", 4096⟩, 0x0), (⟨"data.txt", 1⟩, 0x2000)]
    ∧ ((0 + 4096 + (CHUNK_SIZE - 1)) / CHUNK_SIZE) * CHUNK_SIZE = 0x1000
    ∧ (0x2000 : Nat) ≠ 0x1000 := by decide

/-- C2 (amended): in every plan the first entry's address is `0x0` and
each later entry's address is
`((prevAddress + prevLength) // CHUNK_SIZE + 1) * CHUNK_SIZE`, the
smallest multiple of the chunk size strictly greater than the previous
entry's end offset; when the end offset is an exact multiple of the
chunk size this is one full chunk beyond it, not the end offset. -/
theorem C2_addresses (entries : List ZipEntry) :
    List.Chain' (fun x y : ZipEntry × Nat => y.2 = next_address x.2 x.1.length)
      (plan entries)
    ∧ ((plan entries).head?.all fun x => x.2 == 0x0) = true := by
  refine ⟨planAddrs_chain _ _, ?_⟩
  cases hh : (plan entries).head? with
  | none => rfl
  | some x =>
    have := planAddrs_head_addr hh
    simp [Option.all, this]

/-- C3 counterexample: a session whose single entry's write fails
surfaces the fatal error while the entry's temp file is still on disk —
`os.remove` (line 237) is unreachable after the `CalledProcessError`. -/
theorem C3_counterexample :
    (upload_zip_folder (some DEVICE_FOUND) (fun _ => DEVICE_FOUND) ["COM3"] true
        (fun _ _ => false) [⟨"app.bin", 10⟩]).2 = .uploadError "temp.bin"
    ∧ tempLive
        (upload_zip_folder (some DEVICE_FOUND) (fun _ => DEVICE_FOUND) ["COM3"] true
          (fun _ _ => false) [⟨"app.bin", 10⟩]).1 "temp.bin" = true := by decide

/-- C3 (amended): for every upload session in which an entry's write
fails with a fatal tool-invocation error, the transient local file
materialized for that entry is NOT removed before the failure is
surfaced — the cleanup of line 237 is skipped and the temp file leaks. -/
theorem C3_leak (status : Option Nat) (probe : String → Nat) (ports : List String)
    (eraseOk : Bool) (uploadOk : Nat → String → Bool) (entries : List ZipEntry)
    (tp : String)
    (h : (upload_zip_folder status probe ports eraseOk uploadOk entries).2
      = .uploadError tp) :
    tempLive (upload_zip_folder status probe ports eraseOk uploadOk entries).1 tp
      = true := by
  by_cases hguard : status ≠ some DEVICE_FOUND
  · rw [upload_zip_folder, if_pos hguard] at h
    simp at h
  · rw [upload_zip_folder, if_neg hguard] at h ⊢
    rcases hgd : (get_device probe ports).1 with ⟨dev, st⟩
    rw [hgd] at h
    cases dev with
    | none => simp at h
    | some d =>
      cases eraseOk with
      | false => simp at h
      | true =>
        simp only [if_true] at h ⊢
        exact uploadLoop_leak uploadOk (orderEntries entries) 0x0 tp _ h

/-- C3 witness: the leak theorem applied to a concrete failing session. -/
theorem C3_witness :
    tempLive
      (upload_zip_folder (some DEVICE_FOUND) (fun _ => DEVICE_FOUND) ["COM4"] true
        (fun _ _ => false) [⟨"data.txt", 7⟩]).1 "temp.txt" = true :=
  C3_leak (some DEVICE_FOUND) (fun _ => DEVICE_FOUND) ["COM4"] true
    (fun _ _ => false) [⟨"data.txt", 7⟩] "temp.txt" (by decide)

/-- C4 counterexample: an entry with the empty-string name is NOT
excluded from the plan — it is assigned address `0x0`, contradicting
the claim that empty names are filtered out. -/
theorem C4_counterexample :
    plan [⟨"", 10⟩] = [(⟨"", 10⟩, 0x0)]
    ∧ [((⟨"", 10⟩ : ZipEntry), (0x0 : Nat))] ≠ [] := by decide

/-- C4 (amended): only entries whose name is exactly `"/"` (or Python
`None`, impossible for the string `filename` field) are excluded: no
planned entry is a `"/"` entry, a `"/"` entry neither receives an
address nor advances the running address, and the upload loop never
uploads it; an entry with the empty-string name is not excluded. -/
theorem C4_slash_only (entries : List ZipEntry) (n : Nat) (rest : List ZipEntry)
    (addr : Nat) (ok : Nat → String → Bool) :
    ((plan entries).all fun x => !skipEntry x.1) = true
    ∧ planAddrs (⟨"/", n⟩ :: rest) addr = planAddrs rest addr
    ∧ uploadLoop ok (⟨"/", n⟩ :: rest) addr = uploadLoop ok rest addr :=
  ⟨planAddrs_no_skip _ _, rfl, rfl⟩

/-- C5: `get_device` returns `(none, NO_DEVICE_FOUND)` on an empty port
list and when every candidate probes `NO_DEVICE_FOUND`; after a prefix
of `NO_DEVICE_FOUND` candidates it returns the first `DEVICE_FOUND`
candidate as the device, and returns `(none, BOOT_MODE_ERROR)` at the
first `BOOT_MODE_ERROR` candidate; the instrumented probe list shows no
later candidate is probed in either short-circuit case. -/
theorem C5_resolve (probe : String → Nat) :
    get_device probe [] = ((none, NO_DEVICE_FOUND), [])
    ∧ (∀ ports : List String, (∀ p ∈ ports, probe p = NO_DEVICE_FOUND) →
        get_device probe ports = ((none, NO_DEVICE_FOUND), ports))
    ∧ (∀ (pre : List String) (p : String) (rest : List String),
        (∀ q ∈ pre, probe q = NO_DEVICE_FOUND) → probe p = DEVICE_FOUND →
        get_device probe (pre ++ p :: rest) = ((some p, DEVICE_FOUND), pre ++ [p]))
    ∧ (∀ (pre : List String) (p : String) (rest : List String),
        (∀ q ∈ pre, probe q = NO_DEVICE_FOUND) → probe p = BOOT_MODE_ERROR →
        get_device probe (pre ++ p :: rest) = ((none, BOOT_MODE_ERROR), pre ++ [p])) := by
  refine ⟨rfl, ?_, ?_, ?_⟩
  · intro ports h
    induction ports with
    | nil => rfl
    | cons p ps ih =>
      have hp : probe p = NO_DEVICE_FOUND := h p (List.mem_cons_self p ps)
      have hps : ∀ q ∈ ps, probe q = NO_DEVICE_FOUND :=
        fun q hq => h q (List.mem_cons_of_mem p hq)
      simp [get_device, hp, NO_DEVICE_FOUND, DEVICE_FOUND, BOOT_MODE_ERROR, ih hps]
  · intro pre p rest hpre hp
    rw [get_device_scans_past_notfound probe pre hpre]
    simp [get_device, hp]
  · intro pre p rest hpre hp
    rw [get_device_scans_past_notfound probe pre hpre]
    simp [get_device, hp, BOOT_MODE_ERROR, DEVICE_FOUND]

/-- C5 witness: over candidates `[A ↦ NotFound, B ↦ BootModeError,
C ↦ Found]`, `get_device` yields `(none, BOOT_MODE_ERROR)` having probed
only `A` and `B`. -/
theorem C5_witness :
    get_device probeExample ["A", "B", "C"]
      = ((none, BOOT_MODE_ERROR), ["A", "B"]) :=
  (C5_resolve probeExample).2.2.2 ["A"] "B" ["C"] (by decide) (by decide)

/-- C6: `check_status` classifies the probe's text: the boot-mode-error
signature yields `BOOT_MODE_ERROR` (even when the no-device signature is
also present), the no-device signature without the boot-mode signature
yields `NO_DEVICE_FOUND`, neither signature yields `DEVICE_FOUND`, and
the result is independent of the process exit code — the call uses no
`check=True`, so a nonzero exit never raises. -/
theorem C6_classification (result : CompletedProcess) :
    (pyIn BOOT_MODE_ERROR_TEXT result.stdout = true →
      check_status result = BOOT_MODE_ERROR)
    ∧ (pyIn BOOT_MODE_ERROR_TEXT result.stdout = false →
        pyIn NO_DEVICE_FOUND_TEXT result.stdout = true →
        check_status result = NO_DEVICE_FOUND)
    ∧ (pyIn BOOT_MODE_ERROR_TEXT result.stdout = false →
        pyIn NO_DEVICE_FOUND_TEXT result.stdout = false →
        check_status result = DEVICE_FOUND)
    ∧ (∀ rc : Int, check_status { result with returncode := rc }
        = check_status result) := by
  refine ⟨?_, ?_, ?_, fun _ => rfl⟩
  · intro h; simp [check_status, h]
  · intro h1 h2; simp [check_status, h1, h2]
  · intro h1 h2; simp [check_status, h1, h2]

/-- C6 witness: output containing both signatures, with nonzero exit,
classifies as `BOOT_MODE_ERROR`. -/
theorem C6_witness :
    check_status ⟨"A fatal error occurred: Failed to connect. Wrong boot mode detected", "", 2⟩
      = BOOT_MODE_ERROR :=
  (C6_classification _).1 (by decide)

/-- C7 counterexample: the boot-mode-error signature appearing only in
stderr is ignored — the probe classifies the device as found, not as a
boot-mode error, because `check_status` decodes only `result.stdout`
(line 76). -/
theorem C7_counterexample :
    check_status ⟨"", BOOT_MODE_ERROR_TEXT, 0⟩ = DEVICE_FOUND
    ∧ DEVICE_FOUND ≠ BOOT_MODE_ERROR := by decide

/-- C7 (amended): the probe's classification is determined solely by
the stdout text of the external tool; stderr and the exit code are
ignored, so a signature appearing only in stderr is not reflected. -/
theorem C7_stdout_only (o e e' : String) (rc rc' : Int) :
    check_status ⟨o, e, rc⟩ = check_status ⟨o, e', rc'⟩ := rfl

/-- C8: the plan is a stable partition — its entry sequence is exactly
the non-skipped `.bin` entries in archive order followed by the
non-skipped non-`.bin` entries in archive order. -/
theorem C8_stable_partition (entries : List ZipEntry) :
    (plan entries).map Prod.fst
      = entries.filter (fun e => !skipEntry e && pyEndsWith e.filename ".bin")
        ++ entries.filter (fun e => !skipEntry e && !pyEndsWith e.filename ".bin") := by
  show (planAddrs (orderEntries entries) 0x0).map Prod.fst = _
  rw [planAddrs_map_fst, orderEntries, List.filter_append,
    List.filter_filter, List.filter_filter]

/-- C9: whenever the stored status is anything other than
`DEVICE_FOUND` — including the initial `None` — `upload_zip_folder`
returns `False` with an empty event trace: no file dialog, no device
resolution, no erase, no temp file, no write. -/
theorem C9_guard (status : Option Nat) (probe : String → Nat) (ports : List String)
    (eraseOk : Bool) (uploadOk : Nat → String → Bool) (entries : List ZipEntry)
    (h : status ≠ some DEVICE_FOUND) :
    upload_zip_folder status probe ports eraseOk uploadOk entries
      = ([], .returned false) := by
  rw [upload_zip_folder, if_pos h]

/-- C9 witness: the guard theorem at the initial unset status. -/
theorem C9_witness :
    upload_zip_folder none (fun _ => DEVICE_FOUND) [] true (fun _ _ => true) []
      = ([], .returned false) :=
  C9_guard none (fun _ => DEVICE_FOUND) [] true (fun _ _ => true) [] (by decide)

/-- C10: `upload_file` and `upload_program` invoke the identical
external command with identical arguments for every port, baud rate,
address and file path. -/
theorem C10_upload_ops_equal (port : String) (baud : Nat) (address : Nat)
    (file_path : String) :
    upload_file_cmd port baud address file_path
      = upload_program_cmd port baud address file_path := rfl

end ESP32Upload
